import Mathlib

/-!
Shallow embedding of the ai-dj transition decision-and-rendering engine.

Sources embedded (translated from the Python under src/):
  - src/get_key/camelot.py       : Camelot code table, parsing, compatibility scoring
  - src/get_key/get_key.py       : chroma-based key estimation
  - src/get_key/keyProfiles.py   : Krumhansl-Schmuckler profiles
  - src/transitions/transition_algorithm.py : steps 1.2, 1.6, 4.2 (explicit pseudocode)
  - src/sections.py              : key-moment extraction
  - src/transitions/transitioneffects/crossfade.py : equal-power crossfade renderer
  - src/transitions/transitioneffects/lowCutEcho.py : low-cut echo-slam renderer

Numbers: Python floats are modelled as exact rationals where only rational
arithmetic occurs, and as real numbers where the source evaluates cos, sin,
sqrt or pi.  Python exceptions are modelled as Except values.  Python and
numpy slicing, truncating int-conversion, and floor division are modelled by
the py-prefixed helpers below, following CPython semantics for step-1 slices.
-/

/-- Python int() applied to a float/rational: truncation toward zero. -/
def pyInt (q : ℚ) : ℤ :=
  if q < 0 then -⌊-q⌋ else ⌊q⌋

/-- Normalize one Python slice bound against a list of length len:
    negative indices count from the end, and bounds clamp into [0, len]. -/
def pyIdx (len : ℕ) (i : ℤ) : ℕ :=
  if i < 0 then ((len : ℤ) + i).toNat else min i.toNat len

/-- Python l[a:b] (step 1). -/
def pySlice {α : Type} (l : List α) (a b : ℤ) : List α :=
  let lo := pyIdx l.length a
  let hi := pyIdx l.length b
  (l.drop lo).take (hi - lo)

/-- Python l[:b]. -/
def pySliceTo {α : Type} (l : List α) (b : ℤ) : List α :=
  pySlice l 0 b

/-- Python l[a:]. -/
def pySliceFrom {α : Type} (l : List α) (a : ℤ) : List α :=
  pySlice l a (l.length : ℤ)

/-- numpy slice assignment l[a:b] = repl.  In this program repl always has
    exactly the length of the addressed slice (it is a slice, with the same
    bounds, of a list of the same length), so the plain splice below agrees
    with numpy. -/
def pySetSlice {α : Type} (l : List α) (a : ℤ) (repl : List α) : List α :=
  let lo := pyIdx l.length a
  l.take lo ++ repl ++ l.drop (lo + repl.length)

/-! ## src/get_key/camelot.py -/

/-- KEY_TO_CAMELOT from camelot.py: the full 24-entry key-name to Camelot
    code mapping (A = minor, B = major). -/
def KEY_TO_CAMELOT : List (String × String) :=
  [("C major", "8B"), ("C minor", "5A"),
   ("C# major", "3B"), ("C# minor", "12A"),
   ("D major", "10B"), ("D minor", "7A"),
   ("D# major", "5B"), ("D# minor", "2A"),
   ("E major", "12B"), ("E minor", "9A"),
   ("F major", "7B"), ("F minor", "4A"),
   ("F# major", "2B"), ("F# minor", "11A"),
   ("G major", "9B"), ("G minor", "6A"),
   ("G# major", "4B"), ("G# minor", "1A"),
   ("A major", "11B"), ("A minor", "8A"),
   ("A# major", "6B"), ("A# minor", "3A"),
   ("B major", "1B"), ("B minor", "10A")]

/-- get_camelot_code from camelot.py: dict lookup with default None. -/
def get_camelot_code (key_name : String) : Option String :=
  (KEY_TO_CAMELOT.find? (fun p => p.1 == key_name)).map (fun p => p.2)

/-- Digit run accepted by Python int(): nonempty, all decimal digits. -/
def digitsToNat? (cs : List Char) : Option ℕ :=
  if cs.isEmpty then none
  else if cs.all (fun c => c.isDigit) then
    some (cs.foldl (fun a c => 10 * a + (c.toNat - Char.toNat '0')) 0)
  else none

/-- Python int() on a string: optional sign then decimal digits, ValueError
    (modelled as none) otherwise.  Python additionally strips whitespace and
    permits underscore separators, which no Camelot code contains. -/
def pyStrToInt (cs : List Char) : Option ℤ :=
  match cs with
  | '-' :: rest => (digitsToNat? rest).map (fun n => -(n : ℤ))
  | '+' :: rest => (digitsToNat? rest).map (fun n => (n : ℤ))
  | _ => (digitsToNat? cs).map (fun n => (n : ℤ))

/-- parse_camelot from camelot.py: number = int(code[:-1]); letter = code[-1].
    Python raises ValueError when int() rejects the prefix and IndexError on
    the empty string; both failures are modelled as none.  No validation of
    the number range or of the letter is performed, exactly as in the source. -/
def parse_camelot (code : String) : Option (ℤ × Char) :=
  match code.data.getLast? with
  | none => none
  | some letter => (pyStrToInt code.data.dropLast).map (fun number => (number, letter))

/-- camelot_compatibility from camelot.py: parse both codes, compute the
    circular wheel distance, and score by the fixed if/elif chain. -/
def camelot_compatibility (code_a code_b : String) : Option ℚ := do
  let (num_a, let_a) ← parse_camelot code_a
  let (num_b, let_b) ← parse_camelot code_b
  let raw_diff := |num_a - num_b|
  let circular_diff := min raw_diff (12 - raw_diff)
  let same_letter : Bool := let_a == let_b
  let score : ℚ :=
    if circular_diff = 0 ∧ same_letter then 1
    else if circular_diff = 0 ∧ ¬ same_letter then 9/10
    else if circular_diff = 1 ∧ same_letter then 8/10
    else if circular_diff = 1 ∧ ¬ same_letter then 6/10
    else if circular_diff = 2 then 3/10
    else 0
  pure score

/-- A Camelot code string built from number and letter, e.g. mkCode 8 A = "8A";
    used to quantify over the valid codes named by the spec. -/
def mkCode (n : ℤ) (l : Char) : String :=
  (toString n).push l

/-- The score table of spec section 4.2, written from the words of the spec:
    circDiff = min(|nA-nB|, 12-|nA-nB|); 1.0 / 0.9 / 0.8 / 0.6 / 0.3 / 0.0 by
    the six rows in order.  Kept separate from camelot_compatibility so the
    two can be compared. -/
def specScoreTable (nA : ℤ) (lA : Char) (nB : ℤ) (lB : Char) : ℚ :=
  let circDiff := min |nA - nB| (12 - |nA - nB|)
  if circDiff = 0 ∧ lA = lB then 1
  else if circDiff = 0 ∧ lA ≠ lB then 9/10
  else if circDiff = 1 ∧ lA = lB then 8/10
  else if circDiff = 1 ∧ lA ≠ lB then 6/10
  else if circDiff = 2 then 3/10
  else 0

/-- The six rows of the score table as (guard, score) pairs over parsed
    codes, used to state that the table is exhaustive and mutually
    exclusive. -/
def scoreRows (nA : ℤ) (lA : Char) (nB : ℤ) (lB : Char) : List (Bool × ℚ) :=
  let circ := min |nA - nB| (12 - |nA - nB|)
  [(decide (circ = 0) && (lA == lB), 1),
   (decide (circ = 0) && !(lA == lB), 9/10),
   (decide (circ = 1) && (lA == lB), 8/10),
   (decide (circ = 1) && !(lA == lB), 6/10),
   (decide (circ = 2), 3/10),
   (!(decide (circ = 0)) && !(decide (circ = 1)) && !(decide (circ = 2)), 0)]

/-! ## src/transitions/transition_algorithm.py, steps 1.2, 1.6 and 4.2 -/

/-- Step 1.2: effective BPM difference allowing half/double-time matching. -/
def delta_eff (bpmA bpmB : ℚ) : ℚ :=
  min |bpmA - bpmB| (min |bpmA - 2 * bpmB| |bpmA - (1/2) * bpmB|)

/-- Step 1.6: the explicit Camelot key_score rule chain (exact match 1.0,
    wheel-adjacent same letter 0.8, relative major/minor 0.7, clash 0.2). -/
def key_score (numA : ℤ) (letA : Char) (numB : ℤ) (letB : Char) : ℚ :=
  let diff := |numA - numB|
  let wheel_adjacent := min diff (12 - diff) ≤ 1 ∧ letA = letB
  if numA = numB ∧ letA = letB then 1
  else if wheel_adjacent then 8/10
  else if numA = numB ∧ letA ≠ letB then 7/10
  else 2/10

inductive TransitionType : Type
  | crossfade
  | low_cut_filter_blend
  | reverb_tail
  | low_cut_echo_slam
deriving DecidableEq

/-- Step 4.1 thresholds. -/
def GREAT_BPM : ℚ := 2
def GOOD_BPM : ℚ := 6
def SAFE_STRETCH : ℚ := 6/100
def GOOD_KEY : ℚ := 7/10
def CLASH_KEY : ℚ := 6/10
def BIG_JUMP : ℚ := 15/100

/-- Step 4.2: deterministic transition-type selection, first matching rule
    wins, returning (transition_type, duration_beats). -/
def select_transition_type (d_eff stretch_pct k_score energy_jump : ℚ)
    (entry_label_B : String) : TransitionType × ℕ :=
  if d_eff ≤ GREAT_BPM ∧ k_score ≥ GOOD_KEY ∧ |energy_jump| ≤ BIG_JUMP then
    (TransitionType.crossfade, 16)
  else if k_score < CLASH_KEY then
    (TransitionType.low_cut_filter_blend, 8)
  else if stretch_pct ≤ SAFE_STRETCH ∧ k_score ≥ GOOD_KEY ∧
      (entry_label_B = "intro" ∨ entry_label_B = "verse") then
    (TransitionType.reverb_tail, 8)
  else if stretch_pct > SAFE_STRETCH ∨ d_eff > GOOD_BPM ∨
      entry_label_B = "drop" ∨ |energy_jump| > BIG_JUMP then
    (TransitionType.low_cut_echo_slam, 4)
  else
    (TransitionType.reverb_tail, 8)

/-! ## src/sections.py -/

/-- One allin1 structural segment, reduced to the fields read by
    sections.py (label and start time; end time and statistics are unused
    by find_beat_drop and extract_key_moments). -/
structure Segment : Type where
  label : String
  start : ℚ
deriving DecidableEq

/-- Loop body of find_beat_drop: walk the segments keeping the previous
    one; for i = 0 the (i greater than 0) guard fails and the loop moves on. -/
def find_beat_drop_aux : Option Segment → List Segment → Option ℚ
  | _, [] => none
  | none, seg :: rest => find_beat_drop_aux (some seg) rest
  | some prev, seg :: rest =>
    if seg.label == "chorus" &&
        (prev.label == "verse" || prev.label == "pre-chorus" || prev.label == "intro") then
      some seg.start
    else
      find_beat_drop_aux (some seg) rest

/-- find_beat_drop from sections.py: first chorus segment whose immediate
    predecessor is a verse, pre-chorus, or intro segment; None otherwise. -/
def find_beat_drop (segments : List Segment) : Option ℚ :=
  find_beat_drop_aux none segments

/-- The Beatdrop rule as worded by the spec: the first qualifying
    predecessor/chorus transition among consecutive pairs; stated over
    zipped consecutive pairs, to be compared with find_beat_drop. -/
def specBeatdrop (segments : List Segment) : Option ℚ :=
  ((segments.zip segments.tail).find? (fun pc =>
      pc.2.label == "chorus" &&
        (pc.1.label == "verse" || pc.1.label == "pre-chorus" || pc.1.label == "intro"))).map
    (fun pc => pc.2.start)

/-- find_buildup from sections.py.  The rms frame times produced by librosa
    (an external collaborator) are passed in as the increasing list times.
    mask = (times >= drop_time - window) & (times < drop_time); the first
    masked time is returned, else max(0, drop_time - window). -/
def find_buildup (times : List ℚ) (drop_time window : ℚ) : ℚ :=
  match times.filter (fun t => decide (drop_time - window ≤ t) && decide (t < drop_time)) with
  | t :: _ => t
  | [] => max 0 (drop_time - window)

/-- first_of from extract_key_moments: start of the first segment with the
    given label. -/
def first_of (segments : List Segment) (label : String) : Option ℚ :=
  (segments.find? (fun seg => seg.label == label)).map (fun seg => seg.start)

/-- extract_key_moments from sections.py.  buildup_time is guarded by the
    Python truthiness test (if drop_time), which is false both for None and
    for the float 0.0; the final tuple uses (is not None) tests, so a present
    0.0 passes through there.  The energy-curve frame times for find_buildup
    are passed in as times. -/
def extract_key_moments (times : List ℚ) (segments : List Segment) :
    List (String × Option ℚ) :=
  let drop_time := find_beat_drop segments
  let buildup_time : Option ℚ :=
    match drop_time with
    | some t => if t = 0 then none else some (find_buildup times t 16)
    | none => none
  [("Intro", first_of segments "intro"),
   ("Verse", first_of segments "verse"),
   ("Buildup", buildup_time),
   ("Beatdrop", drop_time),
   ("Chorus", first_of segments "chorus"),
   ("Outro", first_of segments "outro")]

/-! ## src/get_key/keyProfiles.py and src/get_key/get_key.py -/

/-- MAJOR_PROFILE from keyProfiles.py (Krumhansl-Schmuckler). -/
def MAJOR_PROFILE : List ℝ :=
  [6.35, 2.23, 3.48, 2.33, 4.38, 4.09, 2.52, 5.19, 2.39, 3.66, 2.29, 2.88]

/-- MINOR_PROFILE from keyProfiles.py. -/
def MINOR_PROFILE : List ℝ :=
  [6.33, 2.68, 3.52, 5.38, 2.60, 3.53, 2.54, 4.75, 3.98, 2.69, 3.34, 3.17]

/-- PITCH_CLASSES from keyProfiles.py, the twelve pitch class names in
    order (index 0 is C), written as the concatenation of two halves. -/
def PITCH_CLASSES : List String :=
  ["C", "C#", "D", "D#", "E", "F"] ++ ["F#", "G", "G#", "A", "A#", "B"]

/-- np.dot on two equal-length vectors (the only use in get_key.py). -/
def listDot (a b : List ℝ) : ℝ :=
  (List.zipWith (fun x y => x * y) a b).foldl (fun s v => s + v) 0

/-- np.linalg.norm: the Euclidean norm. -/
noncomputable def listNorm (a : List ℝ) : ℝ :=
  Real.sqrt (a.foldl (fun s x => s + x ^ 2) 0)

/-- cosine_similarity from get_key.py: returns 0 when the product of the
    two norms is 0 (the degenerate-vector branch of the source). -/
noncomputable def cosine_similarity (vec_a vec_b : List ℝ) : ℝ :=
  let dot_product := listDot vec_a vec_b
  let magnitude := listNorm vec_a * listNorm vec_b
  if magnitude = 0 then 0 else dot_product / magnitude

/-- rotate_profile from get_key.py: profile[steps:] + profile[:steps]. -/
def rotate_profile (profile : List ℝ) (steps : ℕ) : List ℝ :=
  profile.drop steps ++ profile.take steps

/-- The three best-so-far variables of the detect_key loop. -/
structure KeyState : Type where
  best_key : Option String
  best_score : ℝ
  best_quality : Option String

/-- One iteration of the detect_key loop over (i, pitch): compare the
    chroma against the rotated major then minor profile, keeping the
    strictly better score. -/
noncomputable def key_step (avg_chroma : List ℝ) (st : KeyState) (ip : ℕ × String) :
    KeyState :=
  let major_profile := rotate_profile MAJOR_PROFILE ip.1
  let minor_profile := rotate_profile MINOR_PROFILE ip.1
  let major_score := cosine_similarity avg_chroma major_profile
  let st1 := if major_score > st.best_score then
      KeyState.mk (some (ip.2 ++ " major")) major_score (some "major") else st
  let minor_score := cosine_similarity avg_chroma minor_profile
  if minor_score > st1.best_score then
    KeyState.mk (some (ip.2 ++ " minor")) minor_score (some "minor") else st1

/-- Python round(x, 4).  Mathlib round is half-up where Python rounds
    half-to-even; the difference only shows at exact five-ties and is not
    exercised here. -/
noncomputable def pyRound4 (x : ℝ) : ℝ :=
  (round (x * 10000) : ℤ) / 10000

/-- The result dictionary of detect_key. -/
structure KeyResult : Type where
  key_name : String
  quality : String
  camelot_code : String
  camelot_number : ℤ
  camelot_letter : Char
  confidence : ℝ

/-- detect_key from get_key.py, from step 4 on: audio loading and chroma
    extraction (steps 1 to 3) are external librosa collaborators, so the
    averaged chroma vector is the input.  When its length is not 12 the
    first np.dot call raises ValueError (numpy shape mismatch), checked up
    front here.  After the loop, a None best_key would flow into
    parse_camelot(None) and raise TypeError; with a non-degenerate loop the
    24-entry table always yields a parseable code. -/
noncomputable def detect_key (avg_chroma : List ℝ) : Except String KeyResult :=
  if avg_chroma.length ≠ 12 then Except.error "ValueError: shapes not aligned"
  else
    let st := (PITCH_CLASSES.enum).foldl (key_step avg_chroma)
      (KeyState.mk none (-1) none)
    match st.best_key, st.best_quality with
    | some bk, some bq =>
      match get_camelot_code bk with
      | some cc =>
        match parse_camelot cc with
        | some nl => Except.ok (KeyResult.mk bk bq cc nl.1 nl.2 (pyRound4 st.best_score))
        | none => Except.error "ValueError: invalid literal for int"
      | none => Except.error "TypeError: NoneType is not subscriptable"
    | _, _ => Except.error "TypeError: NoneType is not subscriptable"

/-! ## src/transitions/transitioneffects/crossfade.py -/

/-- np.linspace(a, b, n) for n evenly spaced samples with endpoint. -/
noncomputable def linspace (a b : ℝ) (n : ℕ) : List ℝ :=
  if n = 1 then [a]
  else (List.range n).map (fun (i : ℕ) => a + (((i : ℕ) : ℝ) * (b - a)) / ((n : ℝ) - 1))

/-- numpy in-place elementwise multiply target *= curve (1-D): the curve
    must broadcast against the target and the result must fit back into the
    target, so the curve length must equal the target length or be 1;
    otherwise numpy raises ValueError. -/
def npMulInto (target curve : List ℝ) : Except String (List ℝ) :=
  if curve.length = target.length then
    Except.ok (List.zipWith (fun x y => x * y) target curve)
  else if curve.length = 1 then
    Except.ok (target.map (fun x => x * curve.headD 0))
  else Except.error "ValueError: could not broadcast"

/-- numpy elementwise multiply of two 1-D arrays with size-1 broadcasting. -/
def npMul (a b : List ℝ) : Except String (List ℝ) :=
  if a.length = b.length then Except.ok (List.zipWith (fun x y => x * y) a b)
  else if a.length = 1 then Except.ok (b.map (fun y => a.headD 0 * y))
  else if b.length = 1 then Except.ok (a.map (fun x => x * b.headD 0))
  else Except.error "ValueError: could not broadcast"

/-- numpy elementwise add of two 1-D arrays with size-1 broadcasting. -/
def npAdd (a b : List ℝ) : Except String (List ℝ) :=
  if a.length = b.length then Except.ok (List.zipWith (fun x y => x + y) a b)
  else if a.length = 1 then Except.ok (b.map (fun y => a.headD 0 + y))
  else if b.length = 1 then Except.ok (a.map (fun x => x + b.headD 0))
  else Except.error "ValueError: could not broadcast"

/-- np.max(np.abs(l)): for the nonempty lists on which the renderers call
    it this foldl over 0 equals the true maximum, absolute values being
    nonnegative. -/
def maxAbs (l : List ℝ) : ℝ :=
  l.foldl (fun m x => max m |x|) 0

/-- The identity stand-in for librosa.resample, used to instantiate the
    renderer at concrete inputs whose sample rates already agree. -/
def resample_id : List ℝ → ℕ → ℕ → List ℝ :=
  fun y _ _ => y

/-- crossfadesin from crossfade.py, up to but not including the final
    peak-normalization and file write.  librosa.load is external, so the
    two sample buffers and their sample rates are inputs, and
    librosa.resample is the external collaborator resample.  Buffers are
    mono lists; the source also accepts stereo via its ellipsis slices,
    which act per channel exactly as these 1-D slices.  Returns the
    concatenated (not yet normalized) output and the output sample rate,
    or the ValueError that numpy raises on a shape mismatch. -/
noncomputable def crossfadesin_pre (resample : List ℝ → ℕ → ℕ → List ℝ)
    (y1 y2 : List ℝ) (sr1 sr2 : ℕ)
    (fade_out_start fade_in_end max_fade_seconds : ℚ) :
    Except String (List ℝ × ℕ) := do
  let y2 := if sr1 ≠ sr2 then resample y2 sr2 sr1 else y2
  let sr := sr1
  let cut_sample := pyInt ((fade_out_start + max_fade_seconds) * sr)
  let y1 := pySliceTo y1 cut_sample
  let start_sample := max 0 (pyInt ((fade_in_end - max_fade_seconds) * sr))
  let y2 := pySliceFrom y2 start_sample
  let fade_samples := pyInt (max_fade_seconds * sr)
  if fade_samples < 0 then
    Except.error "ValueError: number of samples must be nonnegative"
  else
    let t := linspace 0 1 fade_samples.toNat
    let fade_out_curve := t.map (fun x => Real.cos (x * (Real.pi / 2)))
    let fade_in_curve := t.map (fun x => Real.sin (x * (Real.pi / 2)))
    let tail1 ← npMulInto (pySliceFrom y1 (-fade_samples)) fade_out_curve
    let head2 ← npMulInto (pySliceTo y2 fade_samples) fade_in_curve
    let overlap ← npAdd tail1 head2
    let output := pySliceTo y1 (-fade_samples) ++ overlap ++ pySliceFrom y2 fade_samples
    if output.isEmpty then Except.error "ValueError: max of an empty sequence"
    else Except.ok (output, sr)

/-- crossfadesin with its final peak-normalization
    output = output / np.max(np.abs(output)); the subsequent wavfile write
    is external output of this buffer. -/
noncomputable def crossfadesin (resample : List ℝ → ℕ → ℕ → List ℝ)
    (y1 y2 : List ℝ) (sr1 sr2 : ℕ)
    (fade_out_start fade_in_end max_fade_seconds : ℚ) :
    Except String (List ℝ × ℕ) := do
  let pre ← crossfadesin_pre resample y1 y2 sr1 sr2
    fade_out_start fade_in_end max_fade_seconds
  Except.ok (pre.1.map (fun x => x / maxAbs pre.1), pre.2)

/-! ## src/transitions/transitioneffects/lowCutEcho.py -/

/-- One second-order section with normalized a0 = 1, as produced by
    scipy.signal.butter(..., output = sos). -/
structure Biquad : Type where
  b0 : ℝ
  b1 : ℝ
  b2 : ℝ
  a1 : ℝ
  a2 : ℝ

/-- One direct-form-II-transposed biquad pass with zero initial conditions,
    the per-section recurrence of scipy.signal.sosfilt. -/
def sosfiltSection (s : Biquad) : ℝ → ℝ → List ℝ → List ℝ
  | _, _, [] => []
  | z1, z2, x :: xs =>
    let y := s.b0 * x + z1
    y :: sosfiltSection s (s.b1 * x - s.a1 * y + z2) (s.b2 * x - s.a2 * y) xs

/-- scipy.signal.sosfilt: cascade the sections. -/
def sosfilt (sos : List Biquad) (x : List ℝ) : List ℝ :=
  sos.foldl (fun acc s => sosfiltSection s 0 0 acc) x

/-- low_cut_filter from lowCutEcho.py: butter(4, cutoff_hz, btype high,
    fs = sr, output = sos) then sosfilt.  The Butterworth design function is
    an external scipy collaborator whose coefficients are transcendental in
    the cutoff, so it is an explicit argument here. -/
def low_cut_filter (butterworth : ℕ → ℤ → ℕ → List Biquad)
    (y : List ℝ) (sr : ℕ) (cutoff_hz : ℤ) : List ℝ :=
  sosfilt (butterworth 4 cutoff_hz sr) y

/-- add_echo from lowCutEcho.py: echo = zeros_like(y);
    echo[delay_samples:] = y[:-delay_samples] * decay; return y + echo.
    For delay_samples greater than 0 the assigned slice lengths agree; for
    delay_samples = 0 and a nonempty y, y[:-0] is empty and numpy raises
    ValueError on the assignment, modelled by the length guard. -/
def add_echo (y : List ℝ) (sr : ℕ) (delay_seconds decay : ℚ) :
    Except String (List ℝ) :=
  let delay_samples := pyInt ((sr : ℚ) * delay_seconds)
  let echo0 : List ℝ := List.replicate y.length 0
  let src := (pySliceTo y (-delay_samples)).map (fun v => v * (decay : ℝ))
  if src.length = (pySliceFrom echo0 delay_samples).length then
    let echo := pySliceTo echo0 delay_samples ++ src
    Except.ok (List.zipWith (fun a b => a + b) y echo)
  else Except.error "ValueError: could not broadcast"

/-- low_cut_echo_transition from lowCutEcho.py: the progressive low-cut
    loop over 8 steps, the fixed echo (0.3 s delay, 0.4 decay), the
    equal-power blend against the head of song_b, and the final
    concatenation.  The source returns this concatenation directly, with no
    normalization step. -/
noncomputable def low_cut_echo_transition (butterworth : ℕ → ℤ → ℕ → List Biquad)
    (song_a song_b : List ℝ) (sr : ℕ) (transition_seconds : ℚ) :
    Except String (List ℝ) := do
  let transition_samples := pyInt ((sr : ℚ) * transition_seconds)
  let end_a := pySliceFrom song_a (-transition_samples)
  let start_b := pySliceTo song_b transition_samples
  let num_steps : ℕ := 8
  let step_size := Int.fdiv transition_samples (num_steps : ℤ)
  let result_a := (List.range num_steps).foldl (fun res (i : ℕ) =>
      let start := ((i : ℕ) : ℤ) * step_size
      let cutoff := pyInt ((((i : ℕ) : ℚ) / (num_steps : ℚ)) * 200)
      let chunk := pySlice end_a start (start + step_size)
      let chunk := if cutoff > 20 then low_cut_filter butterworth chunk sr cutoff
        else chunk
      pySetSlice res start chunk)
    (List.replicate end_a.length (0 : ℝ))
  let result_a ← add_echo result_a sr (3/10) (4/10)
  if transition_samples < 0 then
    Except.error "ValueError: number of samples must be nonnegative"
  else
    let t := linspace 0 (Real.pi / 2) transition_samples.toNat
    let fade_out := t.map Real.cos
    let fade_in := t.map Real.sin
    let faded_a ← npMul result_a fade_out
    let faded_b ← npMul start_b fade_in
    let blended ← npAdd faded_a faded_b
    Except.ok (pySliceTo song_a (-transition_samples) ++ blended ++
      pySliceFrom song_b transition_samples)

/-- A concrete stand-in for the external Butterworth design used when the
    filtered chunks are all zero, where every linear filter agrees: the
    empty cascade. -/
def butter_triv : ℕ → ℤ → ℕ → List Biquad :=
  fun _ _ _ => []

/-! ## Helper lemmas -/

theorem foldl_maxabs_init (l : List ℝ) (a b : ℝ) :
    l.foldl (fun m x => max m |x|) (max a b) = max a (l.foldl (fun m x => max m |x|) b) := by
  induction l generalizing b with
  | nil => rfl
  | cons x xs ih => simp only [List.foldl_cons, max_assoc, ih]

theorem maxAbs_nil : maxAbs [] = 0 := rfl

theorem maxAbs_cons (x : ℝ) (l : List ℝ) : maxAbs (x :: l) = max |x| (maxAbs l) := by
  rw [maxAbs, List.foldl_cons, max_comm, foldl_maxabs_init]
  rfl

theorem maxAbs_nonneg (l : List ℝ) : 0 ≤ maxAbs l := by
  induction l with
  | nil => exact le_refl 0
  | cons x xs ih => rw [maxAbs_cons]; exact le_max_of_le_right ih

theorem maxAbs_eq_zero_iff (l : List ℝ) : maxAbs l = 0 ↔ ∀ x ∈ l, x = 0 := by
  induction l with
  | nil => simp [maxAbs_nil]
  | cons x xs ih =>
    rw [maxAbs_cons]
    constructor
    · intro h
      have hx : |x| = 0 := le_antisymm (le_of_max_le_left h.le) (abs_nonneg x)
      have hxs : maxAbs xs = 0 :=
        le_antisymm (le_of_max_le_right h.le) (maxAbs_nonneg xs)
      intro y hy
      rcases List.mem_cons.1 hy with rfl | hy2
      · exact abs_eq_zero.1 hx
      · exact (ih.1 hxs) y hy2
    · intro h
      have hx : x = 0 := h x (List.mem_cons_self x xs)
      have hxs : maxAbs xs = 0 := ih.2 (fun y hy => h y (List.mem_cons_of_mem x hy))
      rw [hx, hxs, abs_zero, max_self]

theorem maxAbs_pos_iff (l : List ℝ) : 0 < maxAbs l ↔ ∃ x ∈ l, x ≠ 0 := by
  constructor
  · intro h
    by_contra hc
    push_neg at hc
    have hz : maxAbs l = 0 := (maxAbs_eq_zero_iff l).2 hc
    rw [hz] at h
    exact lt_irrefl 0 h
  · rintro ⟨x, hx, hne⟩
    rcases lt_or_eq_of_le (maxAbs_nonneg l) with h | h
    · exact h
    · exact absurd ((maxAbs_eq_zero_iff l).1 h.symm x hx) hne

theorem maxAbs_map_div (l : List ℝ) (c : ℝ) (hc : 0 < c) :
    maxAbs (l.map (fun x => x / c)) = maxAbs l / c := by
  induction l with
  | nil => simp [maxAbs_nil]
  | cons x xs ih =>
    rw [List.map_cons, maxAbs_cons, maxAbs_cons, ih, abs_div, abs_of_pos hc,
      max_div_div_right hc.le]

theorem maxAbs_append (l1 l2 : List ℝ) :
    maxAbs (l1 ++ l2) = max (maxAbs l1) (maxAbs l2) := by
  induction l1 with
  | nil => simp [maxAbs_nil, max_eq_right (maxAbs_nonneg l2)]
  | cons x xs ih => rw [List.cons_append, maxAbs_cons, maxAbs_cons, ih, max_assoc]

theorem maxAbs_replicate_zero (n : ℕ) : maxAbs (List.replicate n (0:ℝ)) = 0 := by
  induction n with
  | zero => rfl
  | succ m ih => rw [List.replicate_succ, maxAbs_cons, ih, abs_zero, max_self]

theorem pyIdx_le (n : ℕ) (i : ℤ) : pyIdx n i ≤ n := by
  rw [pyIdx]
  split <;> omega

theorem pySlice_replicate (n : ℕ) (x : ℝ) (a b : ℤ) :
    pySlice (List.replicate n x) a b =
      List.replicate (pyIdx n b - pyIdx n a) x := by
  rw [pySlice, List.length_replicate, List.drop_replicate, List.take_replicate]
  congr 1
  have ha := pyIdx_le n a
  have hb := pyIdx_le n b
  omega

theorem pySetSlice_replicate_zero (n k : ℕ) (a : ℤ)
    (h : pyIdx n a + k ≤ n) :
    pySetSlice (List.replicate n (0:ℝ)) a (List.replicate k 0) =
      List.replicate n 0 := by
  rw [pySetSlice]
  simp only [List.length_replicate, List.take_replicate, List.drop_replicate]
  rw [← List.replicate_add, ← List.replicate_add]
  congr 1
  have := pyIdx_le n a
  omega

theorem pySetSlice_slice_zero (n : ℕ) (a b : ℤ) :
    pySetSlice (List.replicate n (0:ℝ)) a
      (List.replicate (pyIdx n b - pyIdx n a) 0) = List.replicate n 0 := by
  apply pySetSlice_replicate_zero
  have h1 := pyIdx_le n a
  have h2 := pyIdx_le n b
  omega

theorem low_cut_filter_triv (y : List ℝ) (sr : ℕ) (c : ℤ) :
    low_cut_filter butter_triv y sr c = y := rfl

theorem foldl_fixed {α β : Type} (f : α → β → α) (c : α) (h : ∀ b, f c b = c) :
    ∀ l : List β, l.foldl f c = c := by
  intro l
  induction l with
  | nil => rfl
  | cons x xs ih => rw [List.foldl_cons, h, ih]

theorem sliceFrom_eval : pySliceFrom ((1/2:ℝ) :: List.replicate 80 0) (-80) =
    List.replicate 80 0 := by rfl

theorem linspace_length (a b : ℝ) (n : ℕ) : (linspace a b n).length = n := by
  rw [linspace]
  split
  · simp [*]
  · rw [List.length_map, List.length_range]

theorem zipWith_mul_zero_left (l : List ℝ) (n : ℕ) :
    List.zipWith (fun x y => x * y) (List.replicate n 0) l =
      List.replicate (min n l.length) 0 := by
  induction l generalizing n with
  | nil => simp
  | cons x xs ih =>
    cases n with
    | zero => simp
    | succ m =>
      simp only [List.replicate_succ, List.zipWith_cons_cons, ih, zero_mul,
        List.length_cons, Nat.succ_min_succ]

theorem zipWith_add_zero_both (n m : ℕ) :
    List.zipWith (fun x y => x + y) (List.replicate n (0:ℝ)) (List.replicate m 0) =
      List.replicate (min n m) 0 := by
  induction n generalizing m with
  | zero => simp
  | succ k ih =>
    cases m with
    | zero => simp
    | succ j =>
      simp only [List.replicate_succ, List.zipWith_cons_cons, ih, add_zero,
        Nat.succ_min_succ]

theorem lowcutecho_eval :
    low_cut_echo_transition butter_triv ((1/2 : ℝ) :: List.replicate 80 0)
      (List.replicate 80 (0:ℝ)) 10 8 =
      Except.ok ((1/2 : ℝ) :: List.replicate 80 0) := by
  have hpy : pyInt (((10:ℕ) : ℚ) * 8) = 80 := by norm_num [pyInt]
  simp only [low_cut_echo_transition]
  rw [foldl_fixed]
  · simp only [hpy, sliceFrom_eval, List.length_replicate]
    have hdelay : pyInt (((10:ℕ):ℚ) * (3/10)) = 3 := by norm_num [pyInt]
    have hq3 : pyInt (3 : ℚ) = 3 := by norm_num [pyInt]
    have ht80 : Int.toNat 80 = 80 := rfl
    have hp1 : pyIdx 80 (-3) = 77 := rfl
    have hp2 : pyIdx 80 0 = 0 := rfl
    have hp3 : pyIdx 80 3 = 3 := rfl
    have hp4 : pyIdx 80 80 = 80 := rfl
    have hhead : pySlice ((1/2 : ℝ) :: List.replicate 80 0) 0 (-80) = [(1/2 : ℝ)] := rfl
    have hrep : (List.replicate 3 (0:ℝ) ++ List.replicate 77 0) = List.replicate 80 0 := by
      rw [← List.replicate_add]
    norm_num [add_echo, hdelay, hq3, ht80, pySliceTo, pySliceFrom, pySlice_replicate,
      hp1, hp2, hp3, hp4, hhead, hrep, List.map_replicate, zipWith_mul_zero_left,
      zipWith_add_zero_both, Except.bind, bind, npMul, npAdd, linspace_length,
      List.length_map]
  · intro i
    simp only [hpy, sliceFrom_eval, List.length_replicate, low_cut_filter_triv, ite_self,
      pySlice_replicate]
    exact pySetSlice_slice_zero 80 _ _

theorem crossfade_silent_eval :
    crossfadesin_pre resample_id (List.replicate 5 (0:ℝ)) (List.replicate 8 (0:ℝ))
      1 1 1 2 2 = Except.ok (List.replicate 9 (0:ℝ), 1) := by
  norm_num [crossfadesin_pre, resample_id, pyInt, pyIdx, pySlice, pySliceTo,
    pySliceFrom, linspace, npMulInto, npAdd, List.replicate,
    (show Int.toNat 2 = 2 from rfl), (show Int.toNat 3 = 3 from rfl),
    (show Int.toNat 8 = 8 from rfl), List.range_succ, Except.bind, bind]

theorem crossfade_normalizes (resample : List ℝ → ℕ → ℕ → List ℝ)
    (y1 y2 : List ℝ) (sr1 sr2 : ℕ) (p1 p2 p3 : ℚ) (out : List ℝ) (sr : ℕ)
    (h : crossfadesin resample y1 y2 sr1 sr2 p1 p2 p3 = Except.ok (out, sr))
    (hx : ∃ x ∈ out, x ≠ 0) : maxAbs out = 1 := by
  rw [crossfadesin] at h
  cases hp : crossfadesin_pre resample y1 y2 sr1 sr2 p1 p2 p3 with
  | error e =>
    rw [hp] at h
    exact absurd h (by simp [Except.bind, bind])
  | ok pre =>
    rw [hp] at h
    simp only [Except.bind, bind, Except.ok.injEq, Prod.mk.injEq] at h
    obtain ⟨h1, -⟩ := h
    by_cases hm : maxAbs pre.1 = 0
    · exfalso
      obtain ⟨x, hxm, hxe⟩ := hx
      rw [← h1] at hxm
      obtain ⟨y, -, rfl⟩ := List.mem_map.1 hxm
      rw [hm, div_zero] at hxe
      exact hxe rfl
    · have hpos : 0 < maxAbs pre.1 := lt_of_le_of_ne (maxAbs_nonneg _) (Ne.symm hm)
      rw [← h1, maxAbs_map_div _ _ hpos, div_self hm]

theorem min3_abs_eq_zero (p q r : ℚ) :
    min |p| (min |q| |r|) = 0 ↔ p = 0 ∨ q = 0 ∨ r = 0 := by
  constructor
  · intro h
    by_contra hc
    push_neg at hc
    obtain ⟨hp, hq, hr⟩ := hc
    have hpos : 0 < min |p| (min |q| |r|) :=
      lt_min (abs_pos.2 hp) (lt_min (abs_pos.2 hq) (abs_pos.2 hr))
    exact hpos.ne' h
  · intro h
    have h0 : 0 ≤ min |p| (min |q| |r|) :=
      le_min (abs_nonneg p) (le_min (abs_nonneg q) (abs_nonneg r))
    rcases h with h | h | h
    · exact le_antisymm ((min_le_left _ _).trans_eq (by simp [h])) h0
    · exact le_antisymm ((min_le_right _ _).trans ((min_le_left _ _).trans_eq (by simp [h]))) h0
    · exact le_antisymm ((min_le_right _ _).trans ((min_le_right _ _).trans_eq (by simp [h]))) h0

theorem delta_eff_eq_zero_iff (a b : ℚ) :
    delta_eff a b = 0 ↔ a = b ∨ a = 2 * b ∨ 2 * a = b := by
  rw [delta_eff, min3_abs_eq_zero]
  constructor
  · rintro (h | h | h)
    · exact Or.inl (by linarith)
    · exact Or.inr (Or.inl (by linarith))
    · exact Or.inr (Or.inr (by linarith))
  · rintro (h | h | h)
    · exact Or.inl (by linarith)
    · exact Or.inr (Or.inl (by linarith))
    · exact Or.inr (Or.inr (by linarith))

theorem find_beat_drop_aux_some (p : Segment) (l : List Segment) :
    find_beat_drop_aux (some p) l =
      (((p :: l).zip l).find? (fun pc => pc.2.label == "chorus" &&
        (pc.1.label == "verse" || pc.1.label == "pre-chorus" || pc.1.label == "intro"))).map
        (fun pc => pc.2.start) := by
  induction l generalizing p with
  | nil => rfl
  | cons s rest ih =>
    rw [List.zip_cons_cons, List.find?_cons]
    by_cases h : (s.label == "chorus" &&
        (p.label == "verse" || p.label == "pre-chorus" || p.label == "intro")) = true
    · simp only [find_beat_drop_aux, h, if_true]
      simp [h]
    · simp only [find_beat_drop_aux, h, if_false]
      simp only [Bool.not_eq_true] at h
      simp [h, ih]

theorem foldl_addsq_replicate_zero (n : ℕ) (s : ℝ) :
    (List.replicate n (0:ℝ)).foldl (fun a x => a + x ^ 2) s = s := by
  induction n generalizing s with
  | zero => rfl
  | succ m ih => simp [List.replicate, List.foldl, ih]

theorem listNorm_replicate_zero (n : ℕ) : listNorm (List.replicate n (0:ℝ)) = 0 := by
  simp [listNorm, foldl_addsq_replicate_zero]

theorem cosine_similarity_zero_left (n : ℕ) (b : List ℝ) :
    cosine_similarity (List.replicate n (0:ℝ)) b = 0 := by
  simp [cosine_similarity, listNorm_replicate_zero]

theorem key_step_zero_keeps (n : ℕ) (k q : String) (ip : ℕ × String) :
    key_step (List.replicate n (0:ℝ)) (KeyState.mk (some k) 0 (some q)) ip =
      KeyState.mk (some k) 0 (some q) := by
  simp [key_step, cosine_similarity_zero_left]

theorem foldl_key_step_zero (n : ℕ) (k q : String) (l : List (ℕ × String)) :
    l.foldl (key_step (List.replicate n (0:ℝ))) (KeyState.mk (some k) 0 (some q)) =
      KeyState.mk (some k) 0 (some q) := by
  induction l with
  | nil => rfl
  | cons x xs ih => rw [List.foldl_cons, key_step_zero_keeps, ih]

theorem key_step_zero_first (n : ℕ) :
    key_step (List.replicate n (0:ℝ)) (KeyState.mk none (-1) none) (0, "C") =
      KeyState.mk (some "C major") 0 (some "major") := by
  simp [key_step, cosine_similarity_zero_left]

theorem get_camelot_code_c_major : get_camelot_code "C major" = some "8B" := by decide

theorem detect_key_zero_eval :
    detect_key (List.replicate 12 (0:ℝ)) =
      Except.ok (KeyResult.mk "C major" "major" "8B" 8 'B' 0) := by
  have hfold : (PITCH_CLASSES.enum).foldl (key_step (List.replicate 12 (0:ℝ)))
      (KeyState.mk none (-1) none) = KeyState.mk (some "C major") 0 (some "major") := by
    have henum : PITCH_CLASSES.enum = (0, "C") ::
        [(1, "C#"), (2, "D"), (3, "D#"), (4, "E"), (5, "F"), (6, "F#"),
         (7, "G"), (8, "G#"), (9, "A"), (10, "A#"), (11, "B")] := by decide
    rw [henum, List.foldl_cons, key_step_zero_first, foldl_key_step_zero]
  rw [detect_key]
  rw [if_neg (by simp)]
  rw [hfold]
  simp only [get_camelot_code_c_major]
  have hp : parse_camelot "8B" = some (8, 'B') := by decide
  simp [hp, pyRound4]

theorem crossfade_norm_eval :
    crossfadesin resample_id [(2:ℝ), 2] [(4:ℝ), 0] 1 1 1 1 1 =
      Except.ok ([(1:ℝ), 1, 0], 1) := by
  have hmax : maxAbs [(2:ℝ), 2, 0] = 2 := by
    rw [maxAbs_cons, maxAbs_cons, maxAbs_cons, maxAbs_nil]
    norm_num
  norm_num [crossfadesin, crossfadesin_pre, resample_id, pyInt, pyIdx, pySlice,
    pySliceTo, pySliceFrom, linspace, npMulInto, npAdd, Except.bind, bind,
    (show Int.toNat 1 = 1 from rfl), (show Int.toNat 2 = 2 from rfl),
    Real.cos_zero, Real.sin_zero, hmax]

/-! ## Claim theorems -/

/-- C1 counterexample: on the valid pair 8A and 8B (relative major/minor,
    circular distance 0, different letters) camelot_compatibility returns 0.9
    as the spec table demands, but the key_score chain of step 1.6 returns
    0.7, so the two scoring procedures do not both follow the table. -/
theorem key_score_deviates_from_spec_table :
    camelot_compatibility "8A" "8B" = some (9/10) ∧
    key_score 8 'A' 8 'B' = 7/10 ∧ ((7 : ℚ)/10) ≠ 9/10 := by
  have h1 : parse_camelot "8A" = some (8, 'A') := by decide
  have h2 : parse_camelot "8B" = some (8, 'B') := by decide
  refine ⟨?_, by rfl, by norm_num⟩
  simp only [camelot_compatibility, h1, h2, Option.bind_eq_bind, Option.some_bind, pure]
  norm_num
  rw [if_neg (by decide), if_neg (by decide)]

/-- C1 amended: for every pair of valid Camelot codes (number 1..12, letter
    A or B), camelot_compatibility returns exactly the score of the spec
    table; the key_score chain of step 1.6 agrees with that table exactly
    when the circular distance is at most 1 and the letters are equal
    (scores 1.0 and 0.8), and deviates on every other row. -/
theorem camelot_table_vs_key_score (a b : String) (nA nB : ℤ) (lA lB : Char)
    (hpa : parse_camelot a = some (nA, lA)) (hpb : parse_camelot b = some (nB, lB))
    (h1 : 1 ≤ nA) (h2 : nA ≤ 12) (h3 : 1 ≤ nB) (h4 : nB ≤ 12)
    (hlA : lA = 'A' ∨ lA = 'B') (hlB : lB = 'A' ∨ lB = 'B') :
    camelot_compatibility a b = some (specScoreTable nA lA nB lB) ∧
    (key_score nA lA nB lB = specScoreTable nA lA nB lB ↔
      min |nA - nB| (12 - |nA - nB|) ≤ 1 ∧ lA = lB) := by
  simp only [camelot_compatibility, hpa, hpb, Option.bind_eq_bind, Option.some_bind,
    key_score, specScoreTable, pure]
  have he1 : -11 ≤ nA - nB := by omega
  have he2 : nA - nB ≤ 11 := by omega
  set e := nA - nB with hee
  have hnn : nA = nB ↔ e = 0 := by omega
  interval_cases e <;>
    by_cases hL : lA = lB <;>
      simp [hL, hnn] <;> norm_num

/-- C1 witness: the amended claim applied to codes 8A and 9A. -/
theorem camelot_table_vs_key_score_witness :
    camelot_compatibility "8A" "9A" = some (specScoreTable 8 'A' 9 'A') ∧
    (key_score 8 'A' 9 'A' = specScoreTable 8 'A' 9 'A' ↔
      min |(8:ℤ) - 9| (12 - |(8:ℤ) - 9|) ≤ 1 ∧ 'A' = 'A') :=
  camelot_table_vs_key_score "8A" "9A" 8 9 'A' 'A' (by decide) (by decide)
    (by norm_num) (by norm_num) (by norm_num) (by norm_num)
    (Or.inl rfl) (Or.inl rfl)

/-- C2: the transition style selector applies its five rules in order with
    first match winning and the fixed thresholds, the key-clash rule being
    consulted before any stretch condition; and the three instances named
    by the claim: a tight blend yields crossfade with 16 beats, key score
    0.4 always yields the low cut filter blend with 8 beats, and a drop
    entry with stretch 0.10 and key 0.8 yields the echo slam with 4 beats
    whenever rule 1 does not fire. -/
theorem select_transition_rule_chain :
    (∀ (d s k e : ℚ) (lbl : String),
      (d ≤ GREAT_BPM ∧ k ≥ GOOD_KEY ∧ |e| ≤ BIG_JUMP →
        select_transition_type d s k e lbl = (TransitionType.crossfade, 16)) ∧
      (¬(d ≤ GREAT_BPM ∧ k ≥ GOOD_KEY ∧ |e| ≤ BIG_JUMP) → k < CLASH_KEY →
        select_transition_type d s k e lbl = (TransitionType.low_cut_filter_blend, 8)) ∧
      (¬(d ≤ GREAT_BPM ∧ k ≥ GOOD_KEY ∧ |e| ≤ BIG_JUMP) → ¬(k < CLASH_KEY) →
        s ≤ SAFE_STRETCH ∧ k ≥ GOOD_KEY ∧ (lbl = "intro" ∨ lbl = "verse") →
        select_transition_type d s k e lbl = (TransitionType.reverb_tail, 8)) ∧
      (¬(d ≤ GREAT_BPM ∧ k ≥ GOOD_KEY ∧ |e| ≤ BIG_JUMP) → ¬(k < CLASH_KEY) →
        ¬(s ≤ SAFE_STRETCH ∧ k ≥ GOOD_KEY ∧ (lbl = "intro" ∨ lbl = "verse")) →
        (s > SAFE_STRETCH ∨ d > GOOD_BPM ∨ lbl = "drop" ∨ |e| > BIG_JUMP) →
        select_transition_type d s k e lbl = (TransitionType.low_cut_echo_slam, 4)) ∧
      (¬(d ≤ GREAT_BPM ∧ k ≥ GOOD_KEY ∧ |e| ≤ BIG_JUMP) → ¬(k < CLASH_KEY) →
        ¬(s ≤ SAFE_STRETCH ∧ k ≥ GOOD_KEY ∧ (lbl = "intro" ∨ lbl = "verse")) →
        ¬(s > SAFE_STRETCH ∨ d > GOOD_BPM ∨ lbl = "drop" ∨ |e| > BIG_JUMP) →
        select_transition_type d s k e lbl = (TransitionType.reverb_tail, 8))) ∧
    (∀ (s : ℚ) (lbl : String),
      select_transition_type 1 s (9/10) (5/100) lbl = (TransitionType.crossfade, 16)) ∧
    (∀ (d s e : ℚ) (lbl : String),
      select_transition_type d s (4/10) e lbl = (TransitionType.low_cut_filter_blend, 8)) ∧
    (∀ (d e : ℚ),
      ¬(d ≤ GREAT_BPM ∧ |e| ≤ BIG_JUMP) →
      select_transition_type d (10/100) (8/10) e "drop" =
        (TransitionType.low_cut_echo_slam, 4)) := by
  refine ⟨fun d s k e lbl => ⟨?_, ?_, ?_, ?_, ?_⟩, ?_, ?_, ?_⟩
  · intro h1
    rw [select_transition_type, if_pos h1]
  · intro h1 h2
    rw [select_transition_type, if_neg h1, if_pos h2]
  · intro h1 h2 h3
    rw [select_transition_type, if_neg h1, if_neg h2, if_pos h3]
  · intro h1 h2 h3 h4
    rw [select_transition_type, if_neg h1, if_neg h2, if_neg h3, if_pos h4]
  · intro h1 h2 h3 h4
    rw [select_transition_type, if_neg h1, if_neg h2, if_neg h3, if_neg h4]
  · intro s lbl
    have habs : |(5:ℚ)/100| = 5/100 := abs_of_nonneg (by norm_num)
    rw [select_transition_type,
      if_pos (by rw [habs]; norm_num [GREAT_BPM, GOOD_KEY, BIG_JUMP])]
  · intro d s e lbl
    have h1 : ¬(d ≤ GREAT_BPM ∧ (4:ℚ)/10 ≥ GOOD_KEY ∧ |e| ≤ BIG_JUMP) := by
      rintro ⟨-, hk, -⟩
      norm_num [GOOD_KEY] at hk
    rw [select_transition_type, if_neg h1, if_pos (by norm_num [CLASH_KEY])]
  · intro d e h
    have h1 : ¬(d ≤ GREAT_BPM ∧ (8:ℚ)/10 ≥ GOOD_KEY ∧ |e| ≤ BIG_JUMP) := by
      rintro ⟨ha, -, hb⟩
      exact h ⟨ha, hb⟩
    have h2 : ¬((8:ℚ)/10 < CLASH_KEY) := by norm_num [CLASH_KEY]
    have h3 : ¬((10:ℚ)/100 ≤ SAFE_STRETCH ∧ (8:ℚ)/10 ≥ GOOD_KEY ∧
        (("drop" : String) = "intro" ∨ ("drop" : String) = "verse")) := by
      rintro ⟨hs, -, -⟩
      norm_num [SAFE_STRETCH] at hs
    rw [select_transition_type, if_neg h1, if_neg h2, if_neg h3,
      if_pos (Or.inl (by norm_num [SAFE_STRETCH]))]

/-- C2 witness: rule 1 fired at the concrete instance named by the claim. -/
theorem select_transition_rule_chain_witness :
    select_transition_type 1 0 (9/10) (5/100) "x" = (TransitionType.crossfade, 16) :=
  (select_transition_rule_chain.1 1 0 (9/10) (5/100) "x").1
    ⟨by norm_num [GREAT_BPM], by norm_num [GOOD_KEY],
     by rw [show |(5:ℚ)/100| = 5/100 from abs_of_nonneg (by norm_num)]
        norm_num [BIG_JUMP]⟩

/-- C3 counterexample: the effective BPM delta is not symmetric: at the
    positive tempos 10 and 4 it gives 2 one way and 1 the other. -/
theorem delta_eff_not_symmetric_at_10_4 :
    delta_eff 10 4 = 2 ∧ delta_eff 4 10 = 1 ∧ delta_eff 10 4 ≠ delta_eff 4 10 := by
  refine ⟨by norm_num [delta_eff], by norm_num [delta_eff], ?_⟩
  norm_num [delta_eff]

/-- C3 amended: the zero set of the effective BPM delta is symmetric: for
    positive tempos, deltaEff of a pair vanishes exactly when it vanishes
    for the swapped pair; in particular both orders of 128 and 64 give 0.
    Full symmetry of the value fails, see the counterexample. -/
theorem delta_eff_zero_set_symmetric :
    (∀ bpmA bpmB : ℚ, 0 < bpmA → 0 < bpmB →
      (delta_eff bpmA bpmB = 0 ↔ delta_eff bpmB bpmA = 0)) ∧
    delta_eff 128 64 = 0 ∧ delta_eff 64 128 = 0 := by
  refine ⟨fun a b _ _ => ?_, by norm_num [delta_eff], by norm_num [delta_eff]⟩
  rw [delta_eff_eq_zero_iff, delta_eff_eq_zero_iff]
  constructor
  · rintro (h | h | h)
    · exact Or.inl h.symm
    · exact Or.inr (Or.inr (by linarith))
    · exact Or.inr (Or.inl (by linarith))
  · rintro (h | h | h)
    · exact Or.inl h.symm
    · exact Or.inr (Or.inr (by linarith))
    · exact Or.inr (Or.inl (by linarith))

/-- C3 witness: the zero-set equivalence applied at tempos 128 and 64. -/
theorem delta_eff_zero_set_symmetric_witness :
    delta_eff 128 64 = 0 ↔ delta_eff 64 128 = 0 :=
  delta_eff_zero_set_symmetric.1 128 64 (by norm_num) (by norm_num)

/-- C4: find_beat_drop returns the start of the first chorus segment whose
    immediate predecessor is a verse, pre-chorus or intro segment, and none
    when no such segment exists, exactly as the spec words it over
    consecutive segment pairs; including the two concrete instances named
    by the claim. -/
theorem find_beat_drop_matches_spec :
    (∀ segments : List Segment, find_beat_drop segments = specBeatdrop segments) ∧
    find_beat_drop [Segment.mk "intro" 0, Segment.mk "verse" 20,
      Segment.mk "chorus" 50, Segment.mk "outro" 180] = some 50 ∧
    find_beat_drop [Segment.mk "intro" 0, Segment.mk "chorus" 10] = some 10 := by
  refine ⟨fun segments => ?_, by rfl, by rfl⟩
  cases segments with
  | nil => rfl
  | cons s rest =>
    show find_beat_drop_aux (some s) rest = _
    rw [find_beat_drop_aux_some]
    rfl

/-- C5: on segments with a zero-length intro followed by a chorus starting
    at 0.0, find_beat_drop returns a present Beatdrop at 0.0, yet
    extract_key_moments reports Buildup as absent because the guard
    (if drop_time) uses Python float truthiness, under which 0.0 is false;
    this contradicts the comment in the source about treating 0.0 as a
    valid timestamp and the spec rule that Buildup is never absent while
    Beatdrop is present. -/
theorem buildup_absent_when_beatdrop_zero :
    find_beat_drop [Segment.mk "intro" 0, Segment.mk "chorus" 0] = some 0 ∧
    extract_key_moments [] [Segment.mk "intro" 0, Segment.mk "chorus" 0] =
      [("Intro", some 0), ("Verse", none), ("Buildup", none), ("Beatdrop", some 0),
       ("Chorus", some 0), ("Outro", none)] := by
  exact ⟨rfl, rfl⟩

/-- C6 counterexample: on a 12-entry all-zero chroma vector the key
    estimator does not fail: every cosine similarity is 0, the first
    profile comparison wins, and detect_key returns the key C major with
    Camelot code 8B at confidence 0 - an arbitrary key at confidence 0,
    exactly the outcome the claim rules out. -/
theorem detect_key_zero_chroma_returns_c_major :
    (∀ x ∈ List.replicate 12 (0:ℝ), x = 0) ∧
    detect_key (List.replicate 12 (0:ℝ)) =
      Except.ok (KeyResult.mk "C major" "major" "8B" 8 'B' 0) :=
  ⟨fun _ hx => List.eq_of_mem_replicate hx, detect_key_zero_eval⟩

/-- C6 amended: no AnalysisError exists in the code.  A 12-entry zero
    chroma vector yields the key C major (Camelot 8B) at confidence 0
    rather than a no-key failure, and a chroma vector with fewer than 12
    entries makes the first numpy dot call raise ValueError (an unhandled
    crash) rather than an AnalysisError outcome. -/
theorem detect_key_degenerate_chroma :
    detect_key (List.replicate 12 (0:ℝ)) =
      Except.ok (KeyResult.mk "C major" "major" "8B" 8 'B' 0) ∧
    (∀ v : List ℝ, v.length < 12 →
      detect_key v = Except.error "ValueError: shapes not aligned") := by
  refine ⟨detect_key_zero_eval, fun v hv => ?_⟩
  rw [detect_key, if_pos (by omega)]

/-- C6 witness: the short-chroma branch applied to the empty vector. -/
theorem detect_key_degenerate_chroma_witness :
    detect_key ([] : List ℝ) = Except.error "ValueError: shapes not aligned" :=
  detect_key_degenerate_chroma.2 [] (by norm_num)

/-- C7 counterexample: compatibility scoring does not fail on invalid
    codes: the letter C and the number 13 are accepted by parse_camelot,
    and camelot_compatibility returns a score (0.9 for 8C vs 8A, 0.0 for
    13A vs 8A) instead of an InvalidKeyCode failure. -/
theorem camelot_scores_invalid_codes :
    camelot_compatibility "8C" "8A" = some (9/10) ∧
    camelot_compatibility "13A" "8A" = some 0 ∧
    parse_camelot "8C" = some (8, 'C') ∧ parse_camelot "13A" = some (13, 'A') := by
  have h1 : parse_camelot "8C" = some (8, 'C') := by decide
  have h2 : parse_camelot "8A" = some (8, 'A') := by decide
  have h3 : parse_camelot "13A" = some (13, 'A') := by decide
  refine ⟨?_, ?_, h1, h3⟩
  · simp only [camelot_compatibility, h1, h2, Option.bind_eq_bind, Option.some_bind, pure]
    norm_num
    rw [if_neg (by decide), if_neg (by decide)]
  · simp only [camelot_compatibility, h3, h2, Option.bind_eq_bind, Option.some_bind, pure]
    norm_num

/-- C7 amended: parse_camelot performs no validation and the code defines
    no InvalidKeyCode, so every pair of parseable codes is scored; the
    second half of the claim holds: for every parsed pair exactly one row
    of the score table applies, and camelot_compatibility returns exactly
    the score of that unique row. -/
theorem camelot_rows_exhaustive_exclusive (a b : String) (nA nB : ℤ) (lA lB : Char)
    (hpa : parse_camelot a = some (nA, lA)) (hpb : parse_camelot b = some (nB, lB)) :
    ((scoreRows nA lA nB lB).filter (fun r => r.1)).length = 1 ∧
    camelot_compatibility a b =
      ((scoreRows nA lA nB lB).find? (fun r => r.1)).map (fun r => r.2) := by
  simp only [camelot_compatibility, hpa, hpb, Option.bind_eq_bind, Option.some_bind, pure]
  by_cases h0 : min |nA - nB| (12 - |nA - nB|) = 0 <;>
    by_cases h1 : min |nA - nB| (12 - |nA - nB|) = 1 <;>
      by_cases h2 : min |nA - nB| (12 - |nA - nB|) = 2 <;>
        cases hL : (lA == lB) <;>
          simp only [scoreRows, hL] <;>
            simp_all [List.filter, List.find?]

/-- C7 witness: the exactly-one-row property applied to codes 8A and 9B. -/
theorem camelot_rows_exhaustive_exclusive_witness :
    ((scoreRows 8 'A' 9 'B').filter (fun r => r.1)).length = 1 ∧
    camelot_compatibility "8A" "9B" =
      ((scoreRows 8 'A' 9 'B').find? (fun r => r.1)).map (fun r => r.2) :=
  camelot_rows_exhaustive_exclusive "8A" "9B" 8 9 'A' 'B' (by decide) (by decide)

/-- C8 counterexample: a fade window reaching well past the end of buffer
    A does not make crossfadesin fail: with a 5-sample buffer A, fade out
    requested at second 10 with a 4 second fade at rate 1, the cut clamps,
    the last 4 samples still cover the fade and the renderer returns a mix. -/
theorem crossfadesin_window_overrun_ok :
    (crossfadesin resample_id (List.replicate 5 (1:ℝ)) (List.replicate 8 (1:ℝ))
      1 1 10 4 4).isOk = true := by
  norm_num [crossfadesin, crossfadesin_pre, resample_id, pyInt, pyIdx, pySlice,
    pySliceTo, pySliceFrom, npMulInto, npAdd, linspace_length, List.length_map,
    List.length_zipWith, Except.bind, bind, List.replicate,
    (show Int.toNat 4 = 4 from rfl), (show Int.toNat 14 = 14 from rfl),
    (show Int.toNat 8 = 8 from rfl), (show Int.toNat 5 = 5 from rfl),
    Except.isOk, Except.toBool]

/-- C8 amended: no RenderError exists.  On a sample-rate mismatch
    crossfadesin resamples B itself and then behaves exactly as in the
    equal-rate case, so a rate mismatch alone never fails; the failure that
    does occur is the numpy broadcast ValueError when a cut buffer holds
    fewer samples than the fade length, and as an Except error it carries
    no partial mix. -/
theorem crossfadesin_failure_characterization :
    (∀ (resample : List ℝ → ℕ → ℕ → List ℝ) (y1 y2 : List ℝ) (sr1 sr2 : ℕ)
      (p1 p2 p3 : ℚ), sr1 ≠ sr2 →
      crossfadesin resample y1 y2 sr1 sr2 p1 p2 p3 =
        crossfadesin resample y1 (resample y2 sr2 sr1) sr1 sr1 p1 p2 p3) ∧
    crossfadesin resample_id [(1:ℝ)] (List.replicate 8 (1:ℝ)) 1 1 10 4 4 =
      Except.error "ValueError: could not broadcast" := by
  constructor
  · intro resample y1 y2 sr1 sr2 p1 p2 p3 h
    rw [crossfadesin, crossfadesin, crossfadesin_pre, crossfadesin_pre]
    simp [h]
  · norm_num [crossfadesin, crossfadesin_pre, resample_id, pyInt, pyIdx, pySlice,
      pySliceTo, pySliceFrom, npMulInto, linspace_length, List.length_map,
      Except.bind, bind, List.replicate,
      (show Int.toNat 4 = 4 from rfl), (show Int.toNat 14 = 14 from rfl),
      (show Int.toNat 8 = 8 from rfl), (show ((-3:ℤ)).toNat = 0 from rfl)]

/-- C8 witness: the resample-path equality applied at concrete buffers
    with rates 1 and 2 and the identity resampler. -/
theorem crossfadesin_failure_characterization_witness :
    crossfadesin resample_id [(1:ℝ)] [(1:ℝ)] 1 2 1 1 1 =
      crossfadesin resample_id [(1:ℝ)] [(1:ℝ)] 1 1 1 1 1 := by
  have h := crossfadesin_failure_characterization.1 resample_id [(1:ℝ)] [(1:ℝ)]
    1 2 1 1 1 (by norm_num)
  simpa [resample_id] using h

/-- C9 counterexample: low_cut_echo_transition returns its concatenation
    without peak normalization: a mix whose only nonzero sample is 0.5 is
    returned with maximum absolute value 0.5, not 1, although the result is
    not silent. -/
theorem low_cut_echo_output_unnormalized :
    low_cut_echo_transition butter_triv ((1/2:ℝ) :: List.replicate 80 0)
      (List.replicate 80 (0:ℝ)) 10 8 =
      Except.ok ((1/2:ℝ) :: List.replicate 80 0) ∧
    maxAbs ((1/2:ℝ) :: List.replicate 80 0) ≠ 1 ∧
    (∃ x ∈ (1/2:ℝ) :: List.replicate 80 0, x ≠ 0) := by
  refine ⟨lowcutecho_eval, ?_, ⟨1/2, List.mem_cons_self _ _, by norm_num⟩⟩
  rw [maxAbs_cons, maxAbs_replicate_zero,
    show |(1:ℝ)/2| = 1/2 from abs_of_nonneg (by norm_num)]
  norm_num

/-- C9 amended: crossfadesin peak-normalizes its output, so any returned
    non-silent mix has maximum absolute sample value exactly 1; the echo
    slam renderer does not normalize at all, returning its concatenation
    unchanged (here with maximum absolute value one half). -/
theorem renderer_peak_normalization :
    (∀ (resample : List ℝ → ℕ → ℕ → List ℝ) (y1 y2 : List ℝ) (sr1 sr2 : ℕ)
      (p1 p2 p3 : ℚ) (out : List ℝ) (sr : ℕ),
      crossfadesin resample y1 y2 sr1 sr2 p1 p2 p3 = Except.ok (out, sr) →
      (∃ x ∈ out, x ≠ 0) → maxAbs out = 1) ∧
    low_cut_echo_transition butter_triv ((1/2:ℝ) :: List.replicate 80 0)
      (List.replicate 80 (0:ℝ)) 10 8 =
      Except.ok ((1/2:ℝ) :: List.replicate 80 0) ∧
    maxAbs ((1/2:ℝ) :: List.replicate 80 0) = 1/2 := by
  refine ⟨crossfade_normalizes, lowcutecho_eval, ?_⟩
  rw [maxAbs_cons, maxAbs_replicate_zero]
  norm_num

/-- C9 witness: the normalization half applied to a concrete crossfade
    whose pre-normalization peak is 2. -/
theorem renderer_peak_normalization_witness :
    crossfadesin resample_id [(2:ℝ), 2] [(4:ℝ), 0] 1 1 1 1 1 =
      Except.ok ([(1:ℝ), 1, 0], 1) ∧
    maxAbs [(1:ℝ), 1, 0] = 1 :=
  ⟨crossfade_norm_eval,
   renderer_peak_normalization.1 resample_id [(2:ℝ), 2] [(4:ℝ), 0] 1 1 1 1 1
     [(1:ℝ), 1, 0] 1 crossfade_norm_eval ⟨1, List.mem_cons_self _ _, one_ne_zero⟩⟩

/-- C10 counterexample: with both source buffers entirely silent,
    crossfadesin accepts the inputs and produces an all-zero concatenated
    result, whose peak-normalization divisor max of absolute values is 0,
    not strictly positive. -/
theorem crossfadesin_divisor_zero_on_silence :
    crossfadesin_pre resample_id (List.replicate 5 (0:ℝ)) (List.replicate 8 (0:ℝ))
      1 1 1 2 2 = Except.ok (List.replicate 9 (0:ℝ), 1) ∧
    ¬ (0 < maxAbs (List.replicate 9 (0:ℝ))) :=
  ⟨crossfade_silent_eval, by rw [maxAbs_replicate_zero]; exact lt_irrefl 0⟩

/-- C10 amended: the peak-normalization divisor of crossfadesin is
    strictly positive exactly when some sample of the concatenated
    pre-normalization output is nonzero; on all-silent inputs the accepted
    run produces an all-zero output with divisor 0, so the final division
    is not well-defined there. -/
theorem crossfadesin_divisor_characterization :
    (∀ (resample : List ℝ → ℕ → ℕ → List ℝ) (y1 y2 : List ℝ) (sr1 sr2 : ℕ)
      (p1 p2 p3 : ℚ) (out : List ℝ) (sr : ℕ),
      crossfadesin_pre resample y1 y2 sr1 sr2 p1 p2 p3 = Except.ok (out, sr) →
      (0 < maxAbs out ↔ ∃ x ∈ out, x ≠ 0)) ∧
    crossfadesin_pre resample_id (List.replicate 5 (0:ℝ)) (List.replicate 8 (0:ℝ))
      1 1 1 2 2 = Except.ok (List.replicate 9 (0:ℝ), 1) ∧
    maxAbs (List.replicate 9 (0:ℝ)) = 0 :=
  ⟨fun _ _ _ _ _ _ _ _ out _ _ => maxAbs_pos_iff out,
   crossfade_silent_eval, maxAbs_replicate_zero 9⟩

/-- C10 witness: the divisor characterization applied to the silent run. -/
theorem crossfadesin_divisor_characterization_witness :
    0 < maxAbs (List.replicate 9 (0:ℝ)) ↔ ∃ x ∈ List.replicate 9 (0:ℝ), x ≠ 0 :=
  crossfadesin_divisor_characterization.1 resample_id (List.replicate 5 0)
    (List.replicate 8 0) 1 1 1 2 2 (List.replicate 9 0) 1 crossfade_silent_eval
